import Mathlib

/-!
Shallow embedding of the DoubleEdgeStorage core: the Firebase Cloud
Functions in `functions/src/index.ts` (claims triggers, account
lifecycle, archive/retrieve/listing over the cold GCP bucket) and the
two client-side batch drivers (`moveToGCPBucket` in `FileList.tsx`,
`handleReceiveFiles` in `GCPBucketList.tsx`).

Durable state is modelled explicitly: the Firebase Auth user table with
per-user custom claims, the Firestore `users/{uid}` docs and the
`gcpFiles/{uid}/files/{fileName}` metadata index, the per-user hot tier
(Firebase Storage) and the shared cold bucket, both keyed by
`(accountId, fileName)`.  Network fetch is an explicit environment
parameter; the `/tmp` staging file of the archive handler is transient
(written and unlinked inside the same call) and is not part of durable
state.  `Math.random()` is passed in as an explicit dyadic rational
`rk / 2 ^ re`.
-/

namespace DoubleEdge

/-- Custom-claims object attached to a Firebase user.  A field is `none`
when the claim is absent from the object (JS `undefined`). -/
structure Claims where
  gcpAccess : Option Bool
  admin : Option Bool
deriving Repr, DecidableEq

/-- Caller context of a callable function: `context.auth.uid` plus the
decoded token claims (`request.auth.token`). -/
structure AuthCtx where
  uid : String
  token : Claims
deriving Repr, DecidableEq

/-- `HttpsError` codes used by the handlers. -/
inductive ErrCode
  | unauthenticated
  | permissionDenied
  | invalidArgument
  | internal
  | unknown
deriving Repr, DecidableEq

/-- A Firebase Auth user record (the fields the handlers touch). -/
structure UserRecord where
  uid : String
  email : Option String
  displayName : Option String
  disabled : Bool
  password : String
deriving Repr, DecidableEq

/-- The `users/{uid}` Firestore document written by `setCustomAdminClaims`
(`createdAt` is a server timestamp and is not modelled). -/
structure UserDoc where
  email : String
  isAdmin : Bool
  gcpAccess : Bool
deriving Repr, DecidableEq

/-- An object in the cold bucket: its bytes and content type. -/
structure ColdObject where
  bytes : String
  contentType : String
deriving Repr, DecidableEq

/-- Durable system state shared by all handlers. -/
structure State where
  authUsers : List UserRecord
  claims : List (String × Claims)
  userDocs : List (String × UserDoc)
  hot : List ((String × String) × String)
  cold : List ((String × String) × ColdObject)
  index : List ((String × String) × String)
deriving Repr, DecidableEq

/-- Association-list read (document / object lookup by key). -/
def kvGet {κ α : Type} [BEq κ] (l : List (κ × α)) (k : κ) : Option α :=
  (l.find? (fun p => p.1 == k)).map (fun p => p.2)

/-- Association-list overwrite (document `set` / object upload). -/
def kvSet {κ α : Type} [BEq κ] (l : List (κ × α)) (k : κ) (v : α) : List (κ × α) :=
  (k, v) :: l.filter (fun p => p.1 != k)

/-- Association-list delete (document / object delete). -/
def kvErase {κ α : Type} [BEq κ] (l : List (κ × α)) (k : κ) : List (κ × α) :=
  l.filter (fun p => p.1 != k)

/-- The hardcoded cold bucket name from `index.ts`. -/
def bucketName : String := "double-edge-coldline-bucket-030340395"

/-- Public URL of a cold object, as built by the handlers. -/
def coldUrl (uid fileName : String) : String :=
  "https://storage.googleapis.com/" ++ bucketName ++ "/" ++ uid ++ "/" ++ fileName

/-- `checkAdminAuth`: throws `permission-denied` unless the request is
authenticated and `request.auth.token.admin` is truthy. -/
def checkAdminAuth (auth : Option AuthCtx) : Option ErrCode :=
  match auth with
  | none => some .permissionDenied
  | some a => if a.token.admin = some true then none else some .permissionDenied

/-- `auth.user().onCreate` trigger `setCustomClaims`: for a new user with
an email, set the claims object to `\x7b gcpAccess: email ends with
"@example.com" \x7d`; with no email, return without setting claims. -/
def setCustomClaims (user : UserRecord) (s : State) : State :=
  match user.email with
  | none => s
  | some em =>
      let isGCPEnabled := em.endsWith "@example.com"
      { s with claims := kvSet s.claims user.uid ⟨some isGCPEnabled, none⟩ }

/-- `setCustomAdminClaims`: requires only authentication (there is no
`checkAdminAuth` call in this handler); validates `email` present (the
`typeof isAdmin` check is vacuous here since `isAdmin : Bool`); looks the
user up by email; replaces the target's claims object with
`\x7b gcpAccess: true, admin: isAdmin \x7d` and merge-writes the
`users/{uid}` doc.  A lookup failure is caught and mapped to `unknown`. -/
def setCustomAdminClaims (auth : Option AuthCtx) (email : Option String)
    (isAdmin : Bool) (s : State) : Except ErrCode String × State :=
  match auth with
  | none => (Except.error .unauthenticated, s)
  | some _ =>
    match email with
    | none => (Except.error .invalidArgument, s)
    | some em =>
      if em.isEmpty then (Except.error .invalidArgument, s)
      else
        match s.authUsers.find? (fun r => r.email == some em) with
        | none => (Except.error .unknown, s)
        | some user =>
          let s1 := { s with claims := kvSet s.claims user.uid ⟨some true, some isAdmin⟩ }
          (Except.ok ("Custom claims updated for user: " ++ em),
           { s1 with userDocs := kvSet s1.userDocs user.uid ⟨em, isAdmin, true⟩ })

/-- Projection of a user record returned by `fetchUsers`
(`email`/`displayName` explicitly `null` when undefined). -/
structure ProjUser where
  uid : String
  email : Option String
  displayName : Option String
  disabled : Bool
deriving Repr, DecidableEq

/-- Projection applied to each record inside the `fetchUsers` loop. -/
def projectUser (r : UserRecord) : ProjUser :=
  ⟨r.uid, r.email, r.displayName, r.disabled⟩

/-- Provider-side paging of the full account set into pages of at most
1000 records, in order (the page size passed to `listUsers`). -/
def listPages : List UserRecord → List (List UserRecord)
  | [] => []
  | x :: rest => (x :: rest).take 1000 :: listPages ((x :: rest).drop 1000)
termination_by l => l.length
decreasing_by simp; omega

/-- `admin.auth().listUsers(1000, pageToken)`: returns one page and the
continuation token of the next page (`none` when exhausted).  The opaque
token is modelled as the next page's position. -/
def listUsers (accounts : List UserRecord) (pageToken : Option Nat) :
    List UserRecord × Option Nat :=
  let pages := listPages accounts
  let i := pageToken.getD 0
  (pages.getD i [], if i + 1 < pages.length then some (i + 1) else none)

/-- The do-while pagination loop of `fetchUsers`: call `listUsers`, push
the projected records, continue while a continuation token is present.
Fuel bounds the loop; `fetchUsersUsers` supplies enough for all pages. -/
def fetchUsersLoop (accounts : List UserRecord) : Option Nat → Nat → List ProjUser
  | _, 0 => []
  | tok, fuel + 1 =>
      let page := listUsers accounts tok
      page.1.map projectUser ++
        (match page.2 with
         | some t => fetchUsersLoop accounts (some t) fuel
         | none => [])

/-- The user list accumulated by `fetchUsers` over all pages. -/
def fetchUsersUsers (accounts : List UserRecord) : List ProjUser :=
  fetchUsersLoop accounts none (listPages accounts).length

/-- `fetchUsers` handler: admin gate, then paginate the full account set. -/
def fetchUsers (auth : Option AuthCtx) (s : State) :
    Except ErrCode (List ProjUser) × State :=
  match checkAdminAuth auth with
  | some e => (Except.error e, s)
  | none => (Except.ok (fetchUsersUsers s.authUsers), s)

/-- Character for a base-36 digit, lowercase as in JS `toString(36)`. -/
def base36DigitChar (d : Nat) : Char :=
  if d < 10 then Char.ofNat (48 + d) else Char.ofNat (87 + d)

/-- Base-36 digits of the fraction `k / 2 ^ e`, shortest terminating
expansion (trailing zeros dropped by stopping at remainder 0).  The
expansion of a dyadic rational ends within `e` digits, so fuel `e`
never runs out when called by `jsToString36`. -/
def base36FracDigits (e : Nat) : Nat → Nat → List Char
  | _, 0 => []
  | k, fuel + 1 =>
      if k = 0 then []
      else base36DigitChar (k * 36 / 2 ^ e) :: base36FracDigits e (k * 36 % 2 ^ e) fuel

/-- JS `x.toString(36)` for `x = rk / 2 ^ re` in `[0, 1)`: `"0"` for zero,
otherwise `"0."` followed by the base-36 digits of the fraction. -/
def jsToString36 (rk re : Nat) : String :=
  if rk = 0 then "0"
  else "0." ++ String.mk (base36FracDigits re rk re)

/-- JS `s.slice(-8)`: the last eight characters, or all of `s` when it is
shorter than eight characters. -/
def jsSliceLast8 (s : String) : String :=
  String.mk (s.data.drop (s.data.length - 8))

/-- The replacement secret generated by `resetUserPassword` from the
`Math.random()` value `rk / 2 ^ re`. -/
def newPasswordOf (rk re : Nat) : String :=
  jsSliceLast8 (jsToString36 rk re)

/-- `admin.auth().updateUser(uid, \x7b password \x7d)`: `none` when no such
user exists (the handler catches this and maps it to `unknown`). -/
def updateUserPassword (s : State) (u pw : String) : Option State :=
  if s.authUsers.any (fun r => r.uid == u) then
    some { s with authUsers :=
      s.authUsers.map (fun r => if r.uid == u then { r with password := pw } else r) }
  else none

/-- `admin.auth().updateUser(uid, \x7b disabled \x7d)`. -/
def updateUserDisabled (s : State) (u : String) (d : Bool) : Option State :=
  if s.authUsers.any (fun r => r.uid == u) then
    some { s with authUsers :=
      s.authUsers.map (fun r => if r.uid == u then { r with disabled := d } else r) }
  else none

/-- `admin.auth().deleteUser(uid)`: removes the auth record (and with it
the custom claims, which live on the record). -/
def deleteUser (s : State) (u : String) : Option State :=
  if s.authUsers.any (fun r => r.uid == u) then
    some { s with authUsers := s.authUsers.filter (fun r => r.uid != u),
                  claims := kvErase s.claims u }
  else none

/-- `resetUserPassword` handler: admin gate; `invalid-argument` on a falsy
uid; otherwise generate `Math.random().toString(36).slice(-8)` and apply
it via `updateUser`.  The random value is the explicit input `rk / 2 ^ re`. -/
def resetUserPassword (auth : Option AuthCtx) (uid : Option String)
    (rk re : Nat) (s : State) : Except ErrCode String × State :=
  match checkAdminAuth auth with
  | some e => (Except.error e, s)
  | none =>
    match uid with
    | none => (Except.error .invalidArgument, s)
    | some u =>
      if u.isEmpty then (Except.error .invalidArgument, s)
      else
        let newPassword := newPasswordOf rk re
        match updateUserPassword s u newPassword with
        | some s1 => (Except.ok ("Password reset successfully: " ++ newPassword), s1)
        | none => (Except.error .unknown, s)

/-- `disableUserAccount` handler. -/
def disableUserAccount (auth : Option AuthCtx) (uid : Option String) (s : State) :
    Except ErrCode String × State :=
  match checkAdminAuth auth with
  | some e => (Except.error e, s)
  | none =>
    match uid with
    | none => (Except.error .invalidArgument, s)
    | some u =>
      if u.isEmpty then (Except.error .invalidArgument, s)
      else
        match updateUserDisabled s u true with
        | some s1 => (Except.ok "User account disabled successfully.", s1)
        | none => (Except.error .unknown, s)

/-- `enableUserAccount` handler. -/
def enableUserAccount (auth : Option AuthCtx) (uid : Option String) (s : State) :
    Except ErrCode String × State :=
  match checkAdminAuth auth with
  | some e => (Except.error e, s)
  | none =>
    match uid with
    | none => (Except.error .invalidArgument, s)
    | some u =>
      if u.isEmpty then (Except.error .invalidArgument, s)
      else
        match updateUserDisabled s u false with
        | some s1 => (Except.ok "User account enabled successfully.", s1)
        | none => (Except.error .unknown, s)

/-- `deleteUserAccount` handler. -/
def deleteUserAccount (auth : Option AuthCtx) (uid : Option String) (s : State) :
    Except ErrCode String × State :=
  match checkAdminAuth auth with
  | some e => (Except.error e, s)
  | none =>
    match uid with
    | none => (Except.error .invalidArgument, s)
    | some u =>
      if u.isEmpty then (Except.error .invalidArgument, s)
      else
        match deleteUser s u with
        | some s1 => (Except.ok "User account deleted successfully.", s1)
        | none => (Except.error .unknown, s)

/-- Result of the `fetch(fileUrl)` call in the archive handler: HTTP
success flag, `content-type` header (possibly absent or empty) and body. -/
structure FetchResp where
  ok : Bool
  contentType : Option String
  body : String
deriving Repr, DecidableEq

/-- `response.headers.get("content-type") || "application/octet-stream"`:
the JS `||` falls through on an absent or empty header. -/
def contentTypeOf (resp : FetchResp) : String :=
  match resp.contentType with
  | some c => if c.isEmpty then "application/octet-stream" else c
  | none => "application/octet-stream"

/-- `uploadToGCPBucket` (the Archive handler): authentication check; fetch
the hot-tier source URL (an unreachable source or a non-success status is
the thrown error, caught and mapped to `internal`, before any durable
write); stage to `/tmp` (transient, not modelled); upload the bytes to
the cold bucket at `uid/fileName` preserving the content type (default
`application/octet-stream` on a falsy header); then write the
`gcpFiles/{uid}/files/{fileName}` index doc.  The handler never touches
the hot tier. -/
def uploadToGCPBucket (auth : Option AuthCtx) (fileName fileUrl : String)
    (fetchEnv : String → Option FetchResp) (s : State) :
    Except ErrCode String × State :=
  match auth with
  | none => (Except.error .unauthenticated, s)
  | some a =>
    match fetchEnv fileUrl with
    | none => (Except.error .internal, s)
    | some resp =>
      if !resp.ok then (Except.error .internal, s)
      else
        let s1 := { s with cold := kvSet s.cold (a.uid, fileName) ⟨resp.body, contentTypeOf resp⟩ }
        (Except.ok "File uploaded successfully.",
         { s1 with index := kvSet s1.index (a.uid, fileName) (coldUrl a.uid fileName) })

/-- Client-side `moveToGCPBucket` step for one selected file
(`FileList.tsx`): call `uploadToGCPBucket`, and only after it succeeds
delete the hot-tier object `uid/fileName` via `deleteObject`. -/
def moveFileToGCPBucket (user : AuthCtx) (fileName fileUrl : String)
    (fetchEnv : String → Option FetchResp) (s : State) :
    Except ErrCode Unit × State :=
  match uploadToGCPBucket (some user) fileName fileUrl fetchEnv s with
  | (Except.ok _, s1) => (Except.ok (), { s1 with hot := kvErase s1.hot (user.uid, fileName) })
  | (Except.error e, s1) => (Except.error e, s1)

/-- `grantGCPAccess` handler: authentication only; replaces the caller's
whole claims object with `\x7b gcpAccess: true \x7d`. -/
def grantGCPAccess (auth : Option AuthCtx) (s : State) :
    Except ErrCode String × State :=
  match auth with
  | none => (Except.error .unauthenticated, s)
  | some a =>
      (Except.ok "GCP access granted successfully. Please refresh your token.",
       { s with claims := kvSet s.claims a.uid ⟨some true, none⟩ })

/-- Entry of the list returned by `listGCPFiles`. -/
structure FileEntry where
  name : String
  url : String
deriving Repr, DecidableEq

/-- `listGCPFiles` handler: authentication only; list the cold bucket by
the caller's `uid/` prefix, stripping the prefix from each name. -/
def listGCPFiles (auth : Option AuthCtx) (s : State) :
    Except ErrCode (List FileEntry) × State :=
  match auth with
  | none => (Except.error .unauthenticated, s)
  | some a =>
      let mine := s.cold.filter (fun p => p.1.1 == a.uid)
      (Except.ok (mine.map (fun p => ⟨p.1.2, coldUrl p.1.1 p.1.2⟩)), s)

/-- Events emitted by the Retrieve handler against durable storage, in
execution order. -/
inductive StorageEv
  | fetchCold (key : String × String)
  | putHot (key : String × String)
  | deleteCold (key : String × String)
  | deleteIndex (key : String × String)
deriving Repr, DecidableEq

/-- `downloadFromGCPBucket` (the Retrieve handler): authentication check;
`invalid-argument` on a falsy file name; download the cold object at
`uid/fileName` (absence is the thrown error, caught and mapped to
`internal`, with nothing mutated); save the bytes to the hot tier at the
same key; delete the cold object; delete the index doc.  The third
component is the trace of storage operations performed. -/
def downloadFromGCPBucket (auth : Option AuthCtx) (fileName : Option String)
    (s : State) : Except ErrCode String × State × List StorageEv :=
  match auth with
  | none => (Except.error .unauthenticated, s, [])
  | some a =>
    match fileName with
    | none => (Except.error .invalidArgument, s, [])
    | some fn =>
      if fn.isEmpty then (Except.error .invalidArgument, s, [])
      else
        let key := (a.uid, fn)
        match kvGet s.cold key with
        | none => (Except.error .internal, s, [])
        | some obj =>
          let s1 := { s with hot := kvSet s.hot key obj.bytes }
          let s2 := { s1 with cold := kvErase s1.cold key }
          let s3 := { s2 with index := kvErase s2.index key }
          (Except.ok ("File " ++ fn ++ " successfully received and stored."), s3,
           [.fetchCold key, .putHot key, .deleteCold key, .deleteIndex key])

/-- Caller-visible outcome of the client batch retrieve: the lists of
succeeded and failed file names and the final state. -/
structure ReceiveResult where
  successfulDownloads : List String
  failedDownloads : List String
  final : State
deriving Repr, DecidableEq

/-- Client-side `handleReceiveFiles` loop (`GCPBucketList.tsx`): call
`downloadFromGCPBucket` for each selected file in order; a per-file
failure is caught, the name pushed to `failedDownloads`, and the loop
continues with the next file. -/
def handleReceiveFiles (user : AuthCtx) : List String → State → ReceiveResult
  | [], s => ⟨[], [], s⟩
  | fn :: rest, s =>
    match downloadFromGCPBucket (some user) (some fn) s with
    | (Except.ok _, s1, _) =>
        let r := handleReceiveFiles user rest s1
        { r with successfulDownloads := fn :: r.successfulDownloads }
    | (Except.error _, s1, _) =>
        let r := handleReceiveFiles user rest s1
        { r with failedDownloads := fn :: r.failedDownloads }


/-! ### Association-list lemmas -/

theorem kvGet_cons {κ α : Type} [BEq κ] (p : κ × α) (t : List (κ × α)) (k : κ) :
    kvGet (p :: t) k = if p.1 == k then some p.2 else kvGet t k := by
  by_cases h : p.1 == k
  · simp [kvGet, List.find?_cons, h]
  · simp only [Bool.not_eq_true] at h
    simp [kvGet, List.find?_cons, h]

theorem kvErase_cons {κ α : Type} [BEq κ] (p : κ × α) (t : List (κ × α)) (k : κ) :
    kvErase (p :: t) k = if p.1 == k then kvErase t k else p :: kvErase t k := by
  by_cases h : p.1 == k
  · simp [kvErase, List.filter_cons, bne, h]
  · simp only [Bool.not_eq_true] at h
    simp [kvErase, List.filter_cons, bne, h]

theorem kvGet_kvSet_self {κ α : Type} [BEq κ] [LawfulBEq κ]
    (l : List (κ × α)) (k : κ) (v : α) : kvGet (kvSet l k v) k = some v := by
  simp [kvSet, kvGet_cons]

theorem kvGet_kvErase_self {κ α : Type} [BEq κ] [LawfulBEq κ]
    (l : List (κ × α)) (k : κ) : kvGet (kvErase l k) k = none := by
  induction l with
  | nil => rfl
  | cons p t ih =>
      rw [kvErase_cons]
      by_cases h : p.1 == k
      · simpa [h] using ih
      · simp only [Bool.not_eq_true] at h
        simpa [h, kvGet_cons] using ih

theorem checkAdminAuth_denied (auth : Option AuthCtx)
    (h : ∀ a, auth = some a → a.token.admin ≠ some true) :
    checkAdminAuth auth = some ErrCode.permissionDenied := by
  cases auth with
  | none => rfl
  | some a => simp [checkAdminAuth, h a rfl]

/-! ### Concrete fixtures shared by witnesses and counterexamples -/

/-- A target account present in the identity store. -/
def u1 : UserRecord := ⟨"u1", some "t@x.com", none, false, "pw"⟩

/-- An authenticated caller whose token has `gcpAccess` but `admin: false`. -/
def caller : AuthCtx := ⟨"caller", ⟨some true, some false⟩⟩

/-- An authenticated caller whose token has `admin: true`. -/
def adminCtx : AuthCtx := ⟨"adm", ⟨none, some true⟩⟩

/-- A small state with one account and no claims for it. -/
def st0 : State := ⟨[u1], [("u1", ⟨none, none⟩)], [], [], [], []⟩

/-- A state whose cold tier holds `a.txt` and `b.txt` for account `u`,
with matching index entries. -/
def coldSt : State :=
  ⟨[], [], [], [],
   [(("u", "a.txt"), ⟨"A", "text/plain"⟩), (("u", "b.txt"), ⟨"B", "text/plain"⟩)],
   [(("u", "a.txt"), coldUrl "u" "a.txt"), (("u", "b.txt"), coldUrl "u" "b.txt")]⟩

/-- Account `u` with tier access. -/
def uctx : AuthCtx := ⟨"u", ⟨some true, none⟩⟩

/-- Account `u` authenticated but with `gcpAccess: false`. -/
def noAccessCtx : AuthCtx := ⟨"u", ⟨some false, none⟩⟩

/-- A state whose hot tier holds `f.txt` for account `u`. -/
def hotSt : State := ⟨[], [], [], [(("u", "f.txt"), "F")], [], []⟩

/-- A fetch environment in which every URL serves `"F"` as `text/plain`. -/
def goodFetch : String → Option FetchResp := fun _ => some ⟨true, some "text/plain", "F"⟩

/-- A fetch environment in which every URL is unreachable. -/
def deadFetch : String → Option FetchResp := fun _ => none

/-! ### Claim C1 -/

/-- Claim C1 (amended), theorem: each of the five Account Lifecycle
handlers (`fetchUsers`, `resetUserPassword`, `disableUserAccount`,
`enableUserAccount`, `deleteUserAccount`) returns `PermissionDenied` and
leaves the state unchanged whenever the caller token lacks a truthy
`admin` claim.  The admin-elevation handler `setCustomAdminClaims`,
however, is not behind the admin gate: it never returns
`PermissionDenied`, and an authenticated caller without the `admin`
claim whose target email resolves performs the elevation, mutating the
target's claims. -/
theorem accountLifecycle_admin_gate (auth : Option AuthCtx) (s : State)
    (uid : Option String) (rk re : Nat) (email : Option String) (isAdmin : Bool)
    (hnoadmin : ∀ a, auth = some a → a.token.admin ≠ some true) :
    fetchUsers auth s = (Except.error ErrCode.permissionDenied, s) ∧
    resetUserPassword auth uid rk re s = (Except.error ErrCode.permissionDenied, s) ∧
    disableUserAccount auth uid s = (Except.error ErrCode.permissionDenied, s) ∧
    enableUserAccount auth uid s = (Except.error ErrCode.permissionDenied, s) ∧
    deleteUserAccount auth uid s = (Except.error ErrCode.permissionDenied, s) ∧
    (setCustomAdminClaims auth email isAdmin s).1 ≠ Except.error ErrCode.permissionDenied ∧
    (∀ a em user, auth = some a → email = some em → em.isEmpty = false →
       s.authUsers.find? (fun r => r.email == some em) = some user →
       (setCustomAdminClaims auth email isAdmin s).1 =
         Except.ok ("Custom claims updated for user: " ++ em) ∧
       kvGet (setCustomAdminClaims auth email isAdmin s).2.claims user.uid =
         some ⟨some true, some isAdmin⟩) := by
  have hg := checkAdminAuth_denied auth hnoadmin
  refine ⟨?_, ?_, ?_, ?_, ?_, ?_, ?_⟩
  · simp [fetchUsers, hg]
  · simp [resetUserPassword, hg]
  · simp [disableUserAccount, hg]
  · simp [enableUserAccount, hg]
  · simp [deleteUserAccount, hg]
  · cases auth with
    | none => simp [setCustomAdminClaims]
    | some a =>
      cases email with
      | none => simp [setCustomAdminClaims]
      | some em =>
        by_cases he : em.isEmpty
        · simp [setCustomAdminClaims, he]
        · cases hf : s.authUsers.find? (fun r => r.email == some em) with
          | none => simp [setCustomAdminClaims, he, hf]
          | some user => simp [setCustomAdminClaims, he, hf]
  · intro a em user ha hem hne hfind
    subst ha
    subst hem
    constructor
    · simp [setCustomAdminClaims, hne, hfind]
    · simp [setCustomAdminClaims, hne, hfind, kvGet_kvSet_self]

/-- Claim C1 witness: the amended theorem applied at a concrete non-admin
caller and one-account state. -/
theorem accountLifecycle_admin_gate_witness :
    (∀ a, (some caller : Option AuthCtx) = some a → a.token.admin ≠ some true) ∧
    fetchUsers (some caller) st0 = (Except.error ErrCode.permissionDenied, st0) ∧
    resetUserPassword (some caller) (some "u1") 1 1 st0 =
      (Except.error ErrCode.permissionDenied, st0) :=
  have h : ∀ a, (some caller : Option AuthCtx) = some a → a.token.admin ≠ some true := by
    intro a ha
    cases ha
    decide
  ⟨h, (accountLifecycle_admin_gate (some caller) st0 (some "u1") 1 1 (some "t@x.com") true h).1,
      (accountLifecycle_admin_gate (some caller) st0 (some "u1") 1 1 (some "t@x.com") true h).2.1⟩

/-- Claim C1 counterexample: an authenticated caller whose token carries
`admin: false` successfully runs `setCustomAdminClaims` and mutates the
target account's claims, instead of receiving `PermissionDenied` with no
mutation. -/
theorem setCustomAdminClaims_no_admin_gate_cex :
    caller.token.admin = some false ∧
    (setCustomAdminClaims (some caller) (some "t@x.com") true st0).1 =
      Except.ok "Custom claims updated for user: t@x.com" ∧
    (setCustomAdminClaims (some caller) (some "t@x.com") true st0).2 ≠ st0 ∧
    kvGet (setCustomAdminClaims (some caller) (some "t@x.com") true st0).2.claims "u1" =
      some ⟨some true, some true⟩ := by
  refine ⟨rfl, rfl, ?_, rfl⟩
  decide

/-! ### Claim C2 -/

/-- Claim C2 counterexample: a successful `uploadToGCPBucket` call leaves
the hot-tier object in place — the server-side Archive handler performs
no hot-tier delete. -/
theorem uploadToGCPBucket_no_hot_delete_cex :
    kvGet hotSt.hot ("u", "f.txt") = some "F" ∧
    (uploadToGCPBucket (some uctx) "f.txt" "url" goodFetch hotSt).1 =
      Except.ok "File uploaded successfully." ∧
    kvGet (uploadToGCPBucket (some uctx) "f.txt" "url" goodFetch hotSt).2.hot
      ("u", "f.txt") = some "F" :=
  ⟨rfl, rfl, rfl⟩

/-- Claim C2 (amended), theorem: after a successful Archive call the
object is present in the cold tier at `uid/fileName` and the metadata
index entry exists, but the handler leaves the hot tier untouched; the
hot-tier delete is performed by the client `moveToGCPBucket` step after
the call returns, and after that combined step the object is absent from
the hot tier, present in the cold tier, with the index entry present. -/
theorem uploadToGCPBucket_archive_post (a : AuthCtx) (fn fileUrl : String)
    (fetchEnv : String → Option FetchResp) (s : State) (resp : FetchResp)
    (hresp : fetchEnv fileUrl = some resp) (hok : resp.ok = true) :
    ((uploadToGCPBucket (some a) fn fileUrl fetchEnv s).1 =
        Except.ok "File uploaded successfully." ∧
     kvGet (uploadToGCPBucket (some a) fn fileUrl fetchEnv s).2.cold (a.uid, fn) =
        some ⟨resp.body, contentTypeOf resp⟩ ∧
     kvGet (uploadToGCPBucket (some a) fn fileUrl fetchEnv s).2.index (a.uid, fn) =
        some (coldUrl a.uid fn) ∧
     (uploadToGCPBucket (some a) fn fileUrl fetchEnv s).2.hot = s.hot) ∧
    ((moveFileToGCPBucket a fn fileUrl fetchEnv s).1 = Except.ok () ∧
     kvGet (moveFileToGCPBucket a fn fileUrl fetchEnv s).2.hot (a.uid, fn) = none ∧
     kvGet (moveFileToGCPBucket a fn fileUrl fetchEnv s).2.cold (a.uid, fn) =
        some ⟨resp.body, contentTypeOf resp⟩ ∧
     kvGet (moveFileToGCPBucket a fn fileUrl fetchEnv s).2.index (a.uid, fn) =
        some (coldUrl a.uid fn)) := by
  simp [uploadToGCPBucket, moveFileToGCPBucket, hresp, hok,
        kvGet_kvSet_self, kvGet_kvErase_self]

/-- Claim C2 witness: the amended theorem applied to a concrete hot-tier
file and an environment that serves it. -/
theorem uploadToGCPBucket_archive_post_witness :
    goodFetch "url" = some ⟨true, some "text/plain", "F"⟩ ∧
    (⟨true, some "text/plain", "F"⟩ : FetchResp).ok = true ∧
    kvGet (moveFileToGCPBucket uctx "f.txt" "url" goodFetch hotSt).2.hot
      ("u", "f.txt") = none :=
  ⟨rfl, rfl,
   (uploadToGCPBucket_archive_post uctx "f.txt" "url" goodFetch hotSt
      ⟨true, some "text/plain", "F"⟩ rfl rfl).2.2.1⟩

/-! ### Claim C3 -/

/-- Claim C3 counterexample: an authenticated caller whose token carries
`gcpAccess: false` successfully lists and archives — no tier operation
returns `PermissionDenied` for missing `gcpAccess`. -/
theorem tierOps_no_gcpAccess_check_cex :
    noAccessCtx.token.gcpAccess = some false ∧
    (listGCPFiles (some noAccessCtx) coldSt).1 =
      Except.ok [⟨"a.txt", coldUrl "u" "a.txt"⟩, ⟨"b.txt", coldUrl "u" "b.txt"⟩] ∧
    (uploadToGCPBucket (some noAccessCtx) "f.txt" "url" goodFetch hotSt).1 =
      Except.ok "File uploaded successfully." ∧
    (downloadFromGCPBucket (some noAccessCtx) (some "a.txt") coldSt).1 =
      Except.ok "File a.txt successfully received and stored." :=
  ⟨rfl, rfl, rfl, rfl⟩

/-- Claim C3 (amended), theorem: each tier operation
(`uploadToGCPBucket`, `downloadFromGCPBucket`, `listGCPFiles`) fails with
`Unauthenticated` when no valid token is present; but none of them
checks the `gcpAccess` claim — an authenticated call never fails with
`PermissionDenied`, whatever the claims. -/
theorem tierOps_auth_only (s : State) (a : AuthCtx) (fn fileUrl : String)
    (fetchEnv : String → Option FetchResp) (fileName : Option String) :
    ((uploadToGCPBucket none fn fileUrl fetchEnv s).1 = Except.error ErrCode.unauthenticated ∧
     (downloadFromGCPBucket none fileName s).1 = Except.error ErrCode.unauthenticated ∧
     (listGCPFiles none s).1 = Except.error ErrCode.unauthenticated ∧
     (grantGCPAccess none s).1 = Except.error ErrCode.unauthenticated) ∧
    ((uploadToGCPBucket (some a) fn fileUrl fetchEnv s).1 ≠
        Except.error ErrCode.permissionDenied ∧
     (downloadFromGCPBucket (some a) fileName s).1 ≠
        Except.error ErrCode.permissionDenied ∧
     (listGCPFiles (some a) s).1 =
        Except.ok ((s.cold.filter (fun p => p.1.1 == a.uid)).map
          (fun p => ⟨p.1.2, coldUrl p.1.1 p.1.2⟩))) := by
  refine ⟨⟨rfl, rfl, rfl, rfl⟩, ?_, ?_, rfl⟩
  · cases hf : fetchEnv fileUrl with
    | none => simp [uploadToGCPBucket, hf]
    | some resp =>
      by_cases hok : resp.ok
      · simp [uploadToGCPBucket, hf, hok]
      · simp only [Bool.not_eq_true] at hok
        simp [uploadToGCPBucket, hf, hok]
  · cases fileName with
    | none => simp [downloadFromGCPBucket]
    | some fn2 =>
      by_cases he : fn2.isEmpty
      · simp [downloadFromGCPBucket, he]
      · simp only [Bool.not_eq_true] at he
        cases hc : kvGet s.cold (a.uid, fn2) with
        | none => simp [downloadFromGCPBucket, he, hc]
        | some obj => simp [downloadFromGCPBucket, he, hc]

/-! ### Claim C4 -/

/-- Claim C4, theorem: for a file present in the cold tier, a Retrieve
call succeeds, performs — in this order — the cold fetch, the hot-tier
upload at the same relative key, the cold delete and the index delete,
and afterwards the object is absent from the cold tier, present in the
hot tier, and the index entry is absent. -/
theorem downloadFromGCPBucket_retrieve_spec (a : AuthCtx) (fn : String) (s : State)
    (obj : ColdObject) (hfn : fn.isEmpty = false)
    (hcold : kvGet s.cold (a.uid, fn) = some obj) :
    (downloadFromGCPBucket (some a) (some fn) s).1 =
      Except.ok ("File " ++ fn ++ " successfully received and stored.") ∧
    (downloadFromGCPBucket (some a) (some fn) s).2.2 =
      [StorageEv.fetchCold (a.uid, fn), StorageEv.putHot (a.uid, fn),
       StorageEv.deleteCold (a.uid, fn), StorageEv.deleteIndex (a.uid, fn)] ∧
    kvGet (downloadFromGCPBucket (some a) (some fn) s).2.1.cold (a.uid, fn) = none ∧
    kvGet (downloadFromGCPBucket (some a) (some fn) s).2.1.hot (a.uid, fn) =
      some obj.bytes ∧
    kvGet (downloadFromGCPBucket (some a) (some fn) s).2.1.index (a.uid, fn) = none := by
  simp [downloadFromGCPBucket, hfn, hcold, kvGet_kvSet_self, kvGet_kvErase_self]

/-- Claim C4 witness: the theorem applied to a concrete cold-tier file. -/
theorem downloadFromGCPBucket_retrieve_spec_witness :
    "a.txt".isEmpty = false ∧
    kvGet coldSt.cold ("u", "a.txt") = some ⟨"A", "text/plain"⟩ ∧
    (downloadFromGCPBucket (some uctx) (some "a.txt") coldSt).1 =
      Except.ok ("File " ++ "a.txt" ++ " successfully received and stored.") :=
  ⟨rfl, rfl,
   (downloadFromGCPBucket_retrieve_spec uctx "a.txt" coldSt ⟨"A", "text/plain"⟩
      rfl rfl).1⟩

/-! ### Claim C5 -/

/-- Claim C5, theorem: when the fetch of the hot-tier source fails — the
source unreachable or a non-success HTTP status — the Archive call
returns an `internal` error and the durable state is exactly unchanged:
no cold object written, no index entry created or changed. -/
theorem uploadToGCPBucket_fetch_failure_no_mutation (a : AuthCtx)
    (fn fileUrl : String) (fetchEnv : String → Option FetchResp) (s : State)
    (hfail : fetchEnv fileUrl = none ∨
             ∃ r, fetchEnv fileUrl = some r ∧ r.ok = false) :
    uploadToGCPBucket (some a) fn fileUrl fetchEnv s =
      (Except.error ErrCode.internal, s) := by
  rcases hfail with h | ⟨r, hr, hok⟩
  · simp [uploadToGCPBucket, h]
  · simp [uploadToGCPBucket, hr, hok]

/-- Claim C5 witness: the theorem applied to an unreachable source. -/
theorem uploadToGCPBucket_fetch_failure_witness :
    (deadFetch "url" = none ∨ ∃ r, deadFetch "url" = some r ∧ r.ok = false) ∧
    uploadToGCPBucket (some uctx) "f.txt" "url" deadFetch hotSt =
      (Except.error ErrCode.internal, hotSt) :=
  ⟨Or.inl rfl,
   uploadToGCPBucket_fetch_failure_no_mutation uctx "f.txt" "url" deadFetch hotSt
     (Or.inl rfl)⟩

/-! ### Claim C7 -/

/-- Claim C7 (code bug), theorem: `Math.random().toString(36).slice(-8)`
is not guaranteed to yield eight symbols.  At the representable random
value 0.5 (base-36 representation `"0.i"`), an admin reset for the
present target `u1` succeeds and both returns and stores the
three-symbol secret `"0.i"`, fewer than the eight symbols the
specification requires. -/
theorem resetUserPassword_short_secret :
    newPasswordOf 1 1 = "0.i" ∧
    (newPasswordOf 1 1).length = 3 ∧
    ¬ (8 ≤ (newPasswordOf 1 1).length) ∧
    (resetUserPassword (some adminCtx) (some "u1") 1 1 st0).1 =
      Except.ok "Password reset successfully: 0.i" ∧
    ((resetUserPassword (some adminCtx) (some "u1") 1 1 st0).2.authUsers.find?
        (fun r => r.uid == "u1")).map (fun r => r.password) = some "0.i" :=
  ⟨rfl, rfl, by decide, rfl, rfl⟩

/-! ### Claim C9 -/

/-- Claim C9, theorem: a successful `grantGCPAccess` call replaces the
caller's whole custom-claims object with exactly
`\x7b gcpAccess: true \x7d`: afterwards `admin` is absent, so a
previously held `admin: true` claim is erased by the self-grant. -/
theorem grantGCPAccess_replaces_claims (a : AuthCtx) (s : State) :
    (grantGCPAccess (some a) s).1 =
      Except.ok "GCP access granted successfully. Please refresh your token." ∧
    kvGet (grantGCPAccess (some a) s).2.claims a.uid =
      some ⟨some true, none⟩ :=
  ⟨rfl, kvGet_kvSet_self _ _ _⟩

/-! ### Claim C10 -/

/-- Claim C10, theorem: the on-create trigger leaves the state unchanged
when the new account has no email, and otherwise sets the account's
claims object to `\x7b gcpAccess: b \x7d` where `b` is true exactly when
the email ends with `"@example.com"`. -/
theorem setCustomClaims_email_gate (user : UserRecord) (s : State) :
    (user.email = none → setCustomClaims user s = s) ∧
    (∀ em, user.email = some em →
       kvGet (setCustomClaims user s).claims user.uid =
         some ⟨some (em.endsWith "@example.com"), none⟩) := by
  constructor
  · intro h
    simp [setCustomClaims, h]
  · intro em h
    simp [setCustomClaims, h, kvGet_kvSet_self]

/-- A new account without an email. -/
def noMailU : UserRecord := ⟨"n", none, none, false, ""⟩

/-- A new account with an `@example.com` email. -/
def mailU : UserRecord := ⟨"m", some "a@example.com", none, false, ""⟩

/-- A new account with an email outside `@example.com`. -/
def otherU : UserRecord := ⟨"o", some "a@other.com", none, false, ""⟩

/-- Claim C10 witness: the theorem applied to a concrete account without
an email and to concrete accounts inside and outside `@example.com`. -/
theorem setCustomClaims_email_gate_witness :
    (noMailU.email = none ∧ setCustomClaims noMailU st0 = st0) ∧
    (mailU.email = some "a@example.com" ∧
     kvGet (setCustomClaims mailU st0).claims "m" =
       some ⟨some ("a@example.com".endsWith "@example.com"), none⟩) ∧
    (otherU.email = some "a@other.com" ∧
     kvGet (setCustomClaims otherU st0).claims "o" =
       some ⟨some ("a@other.com".endsWith "@example.com"), none⟩) :=
  ⟨⟨rfl, (setCustomClaims_email_gate noMailU st0).1 rfl⟩,
   ⟨rfl, (setCustomClaims_email_gate mailU st0).2 "a@example.com" rfl⟩,
   ⟨rfl, (setCustomClaims_email_gate otherU st0).2 "a@other.com" rfl⟩⟩

/-! ### Claim C6 -/

/-- Claim C6, theorem: the client batch Retrieve treats each requested
file independently — the succeeded and failed name lists together are a
permutation of the whole input list, so a failure on one file never
aborts the processing of the later ones — and on the spec's example
batch, in a state where `missing.txt` is absent from the cold tier,
`a.txt` and `b.txt` are reported succeeded, `missing.txt` is reported
failed, and `b.txt` is really moved to the hot tier despite the earlier
failure. -/
theorem handleReceiveFiles_independent :
    (∀ (user : AuthCtx) (names : List String) (s : State),
       ((handleReceiveFiles user names s).successfulDownloads ++
        (handleReceiveFiles user names s).failedDownloads).Perm names) ∧
    (handleReceiveFiles uctx ["a.txt", "missing.txt", "b.txt"] coldSt).successfulDownloads =
      ["a.txt", "b.txt"] ∧
    (handleReceiveFiles uctx ["a.txt", "missing.txt", "b.txt"] coldSt).failedDownloads =
      ["missing.txt"] ∧
    kvGet coldSt.cold ("u", "missing.txt") = none ∧
    kvGet (handleReceiveFiles uctx ["a.txt", "missing.txt", "b.txt"] coldSt).final.hot
      ("u", "b.txt") = some "B" := by
  refine ⟨?_, rfl, rfl, rfl, rfl⟩
  intro user names
  induction names with
  | nil =>
      intro s
      simp [handleReceiveFiles]
  | cons fn rest ih =>
      intro s
      rcases h : downloadFromGCPBucket (some user) (some fn) s with ⟨r, s1, tr⟩
      cases r with
      | ok v =>
          simp only [handleReceiveFiles, h]
          simpa using List.Perm.cons fn (ih s1)
      | error e =>
          simp only [handleReceiveFiles, h]
          exact List.perm_middle.trans (List.Perm.cons fn (ih s1))

/-! ### Claim C8 -/

theorem listPages_flatten (l : List UserRecord) : (listPages l).flatten = l := by
  induction l using listPages.induct with
  | case1 => simp [listPages]
  | case2 x rest ih =>
      rw [listPages]
      simp only [List.flatten_cons]
      rw [ih, List.take_append_drop]

theorem fetchUsersLoop_drop (accounts : List UserRecord) :
    ∀ (fuel i : Nat), (listPages accounts).length ≤ i + fuel →
      fetchUsersLoop accounts (some i) fuel =
        (((listPages accounts).drop i).flatten).map projectUser := by
  intro fuel
  induction fuel with
  | zero =>
      intro i hle
      rw [List.drop_eq_nil_of_le (by omega)]
      rfl
  | succ fuel ih =>
      intro i hle
      by_cases hi : i < (listPages accounts).length
      · by_cases hi2 : i + 1 < (listPages accounts).length
        · simp only [fetchUsersLoop, listUsers, Option.getD_some, if_pos hi2]
          rw [ih (i + 1) (by omega), List.getD_eq_getElem _ _ hi,
              List.drop_eq_getElem_cons hi, List.flatten_cons, List.map_append]
        · simp only [fetchUsersLoop, listUsers, Option.getD_some, if_neg hi2]
          rw [List.getD_eq_getElem _ _ hi, List.drop_eq_getElem_cons hi,
              List.drop_eq_nil_of_le (by omega), List.flatten_cons, List.flatten_nil,
              List.map_append]
          simp
      · simp only [fetchUsersLoop, listUsers, Option.getD_some,
                   if_neg (by omega : ¬ i + 1 < (listPages accounts).length)]
        rw [List.getD_eq_default _ _ (by omega), List.drop_eq_nil_of_le (by omega)]
        simp

theorem fetchUsersLoop_none (accounts : List UserRecord) (fuel : Nat) :
    fetchUsersLoop accounts none fuel = fetchUsersLoop accounts (some 0) fuel := by
  cases fuel with
  | zero => rfl
  | succ fuel => rfl

theorem fetchUsersUsers_eq (accounts : List UserRecord) :
    fetchUsersUsers accounts = accounts.map projectUser := by
  rw [fetchUsersUsers, fetchUsersLoop_none,
      fetchUsersLoop_drop accounts (listPages accounts).length 0 (by omega),
      List.drop_zero, listPages_flatten]

/-- Claim C8, theorem: for an admin caller, `fetchUsers` pages through
the full account set with page size 1000, following the continuation
token until exhausted, and returns exactly the projection
`uid/email/displayName/disabled` of the whole set — each account exactly
once, also when the set spans more than one page boundary. -/
theorem fetchUsers_all_pages (a : AuthCtx) (s : State)
    (hadm : a.token.admin = some true) :
    fetchUsers (some a) s = (Except.ok (s.authUsers.map projectUser), s) := by
  simp [fetchUsers, checkAdminAuth, hadm, fetchUsersUsers_eq]

/-- 1500 synthetic accounts: a set that spans two 1000-record pages. -/
def mkUsers (n : Nat) : List UserRecord :=
  (List.range n).map (fun i => ⟨toString i, none, none, false, ""⟩)

/-- A state whose identity store holds 1500 accounts. -/
def bigSt : State := ⟨mkUsers 1500, [], [], [], [], []⟩

/-- Claim C8 witness: the theorem applied to an admin caller over a
1500-account store, which spans two pages of size 1000. -/
theorem fetchUsers_all_pages_witness :
    adminCtx.token.admin = some true ∧
    1000 < (mkUsers 1500).length ∧
    fetchUsers (some adminCtx) bigSt =
      (Except.ok (bigSt.authUsers.map projectUser), bigSt) :=
  ⟨rfl, by simp [mkUsers], fetchUsers_all_pages adminCtx bigSt rfl⟩

end DoubleEdge
